import Mathlib

/- Verification of the calibration-and-reconstruction engine of the UOP CarbonTrace
graph digitizer (source files UOP_CarbonTrace.py and UOP_CarbonTrace_v2.py).

Modelling conventions:
* Python floats are modelled as exact rationals (every finite IEEE double is a
  rational); values produced by `log10` and `10 ** _` are modelled in `ℝ`.
* Raised exceptions and reported message boxes are modelled by `Except` error
  values; `SaveError.isReported` records whether the corresponding Python control
  flow shows a message box (`QMessageBox.warning` / status hint) or lets the
  exception escape the handler unhandled.
* The loaded image is a height-indexed list of rows, each row a list of pixels,
  each pixel a list of normalized channel values (the code slices `[:, :, :3]`,
  so only the first three channels are read).
* Text fields are modelled by their parse outcome: `FieldText.empty` for an
  empty string, `FieldText.invalid` for text on which `float()` raises
  `ValueError`, and `FieldText.num v` for text parsing to the number `v`.
-/

namespace CarbonTrace

/-- An image: rows (y index) of pixels (x index) of channel values in `[0,1]`. -/
def Image := List (List (List ℚ))

/-- First three channels of a pixel, modelling the `[:, :, :3]` slice
(`img_rgb = self.img[:, :, :3]`). -/
def pixelRGB (p : List ℚ) : ℚ × ℚ × ℚ :=
  (p.getD 0 0, p.getD 1 0, p.getD 2 0)

/-- Euclidean RGB distance, modelling `np.linalg.norm(img_rgb - target, axis=2)`
at one pixel. -/
noncomputable def colorDist (p t : ℚ × ℚ × ℚ) : ℝ :=
  Real.sqrt ((((p.1 - t.1 : ℚ) : ℝ)) ^ 2 + (((p.2.1 - t.2.1 : ℚ) : ℝ)) ^ 2 +
    (((p.2.2 - t.2.2 : ℚ) : ℝ)) ^ 2)

/-- The per-pixel match test `dist < tol` used by `np.where(dist < tol)`.
Note the comparison in the code is strict. -/
def isMatch (p t : ℚ × ℚ × ℚ) (tol : ℚ) : Prop :=
  colorDist p t < (tol : ℝ)

/-- Strict square-distance characterisation of the match test. -/
theorem isMatch_iff (p t : ℚ × ℚ × ℚ) (tol : ℚ) :
    isMatch p t tol ↔
      0 < tol ∧
        (p.1 - t.1) ^ 2 + (p.2.1 - t.2.1) ^ 2 + (p.2.2 - t.2.2) ^ 2 < tol ^ 2 := by
  unfold isMatch colorDist
  constructor
  · intro h
    have htolR : (0 : ℝ) < (tol : ℚ) := lt_of_le_of_lt (Real.sqrt_nonneg _) h
    have htol : (0 : ℚ) < tol := by exact_mod_cast htolR
    refine ⟨htol, ?_⟩
    have hlt := (Real.sqrt_lt' htolR).mp h
    exact_mod_cast hlt
  · rintro ⟨htol, hsq⟩
    have htolR : (0 : ℝ) < (tol : ℚ) := by exact_mod_cast htol
    refine (Real.sqrt_lt' htolR).mpr ?_
    exact_mod_cast hsq

instance isMatchDec (p t : ℚ × ℚ × ℚ) (tol : ℚ) : Decidable (isMatch p t tol) :=
  decidable_of_iff _ (isMatch_iff p t tol).symm

/-- All matched pixel coordinates as `(row, column)` pairs in row-major scan
order, modelling `y_idx, x_idx = np.where(dist < tol)`. -/
def matchCoords (img : Image) (t : ℚ × ℚ × ℚ) (tol : ℚ) : List (ℕ × ℕ) :=
  (List.range img.length).flatMap (fun y =>
    ((List.range ((img.getD y []).length)).filter
      (fun x => decide (isMatch (pixelRGB ((img.getD y []).getD x [])) t tol))).map
      (fun x => (y, x)))

/-- Sorted distinct values, modelling `np.unique(x_idx)`. -/
def uniqueSorted (l : List ℕ) : List ℕ :=
  List.insertionSort (fun a b => a ≤ b) l.dedup

/-- Mean of the row indices matched in column `x`, modelling
`np.mean(y_idx[x_idx == ux])`. -/
def colMean (m : List (ℕ × ℕ)) (x : ℕ) : ℚ :=
  let rows := (m.filter (fun q => q.2 == x)).map (fun q => (q.1 : ℚ))
  rows.sum / rows.length

/-- The candidate points produced by the colour scan: one point per distinct
matched column (ascending), the y-coordinate being the mean matched row. -/
def extractPoints (img : Image) (t : ℚ × ℚ × ℚ) (tol : ℚ) : List (ℚ × ℚ) :=
  (uniqueSorted ((matchCoords img t tol).map Prod.snd)).map
    (fun (ux : ℕ) => ((ux : ℚ), colMean (matchCoords img t tol) ux))

/-- The matched row indices of one pixel column, in ascending order (used to
state the per-column collapse property). -/
def colRows (img : Image) (t : ℚ × ℚ × ℚ) (tol : ℚ) (x : ℕ) : List ℕ :=
  (List.range img.length).filter (fun y => decide ((y, x) ∈ matchCoords img t tol))

inductive ColorError
| invalidColorInputs
deriving DecidableEq

/-- Parse outcomes of the R/G/B integer fields (`int(...)`) and the tolerance
field (`float(...)`); `none` models a raised `ValueError`. -/
structure ColorInputs where
  in_r : Option ℤ
  in_g : Option ℤ
  in_b : Option ℤ
  in_tol : Option ℚ

/-- The `select_by_color` handler (identical in both source files): parse the
four fields (any parse failure reports "Invalid color inputs." and leaves the
point list untouched), normalize the target by 255, divide the tolerance by
100, scan, collapse per column and append the new points. Returns the updated
`data_points` list and the batch outcome. -/
def select_by_color (img : Image) (inp : ColorInputs) (data_points : List (ℚ × ℚ)) :
    List (ℚ × ℚ) × Except ColorError (List (ℚ × ℚ)) :=
  match inp.in_r, inp.in_g, inp.in_b, inp.in_tol with
  | some r, some g, some b, some tolPercent =>
    let tol : ℚ := tolPercent / 100
    let target : ℚ × ℚ × ℚ := ((r : ℚ) / 255, (g : ℚ) / 255, (b : ℚ) / 255)
    let new_points := extractPoints img target tol
    (data_points ++ new_points, Except.ok new_points)
  | _, _, _, _ => (data_points, Except.error ColorError.invalidColorInputs)

/-- One calibration anchor: `{'pixel': ..., 'val': ...}`; `none` models Python
`None`. -/
structure Anchor where
  pixel : Option ℚ
  val : Option ℚ
deriving DecidableEq

/-- The `self.calibration` dictionary; Python dict iteration order is the
insertion order `x_min, x_max, y_min, y_max`. -/
structure Calibration where
  x_min : Anchor
  x_max : Anchor
  y_min : Anchor
  y_max : Anchor
deriving DecidableEq

/-- Parse outcome of one axis-limit text field: empty text, text on which
`float()` raises `ValueError`, or a parsed number. -/
inductive FieldText
| empty
| invalid
| num (v : ℚ)
deriving DecidableEq

def FieldText.isEmptyText : FieldText → Bool
| .empty => true
| _ => false

/-- Result of `float(text)`; the empty string is also unparseable, but the code
checks emptiness separately first. -/
def parseFloat : FieldText → Option ℚ
| .num v => some v
| _ => none

/-- The four axis-limit line edits read by `save_data`. -/
structure Fields where
  in_xmin : FieldText
  in_xmax : FieldText
  in_ymin : FieldText
  in_ymax : FieldText

/-- The mutable session state touched by `save_data`: the calibration dict and
the traced-point list, plus the per-axis scale flags (v1 radio buttons
`rad_x_log.isChecked()` / v2 `x_scale_type == 'log'` are both modelled as a
boolean). -/
structure Session where
  cal : Calibration
  data_points : List (ℚ × ℚ)
  x_log : Bool
  y_log : Bool
deriving DecidableEq

/-- How a `save_data` run can fail.  The first four outcomes are reported with
`QMessageBox.warning`; the last two model Python exceptions (`ValueError` from
`log10` of a non-positive number, `ZeroDivisionError` from a zero pixel span)
that are raised outside any `try` block and therefore escape unhandled. -/
inductive SaveError
| calibrationMissing (mentioned : List String)
| noData
| emptyField
| valueParseError
| mathDomainError
| zeroDivisionError
deriving DecidableEq

/-- Whether the failure is reported to the user as a message box (`true`) or is
an unhandled exception escaping the handler (`false`). -/
def SaveError.isReported : SaveError → Bool
| .calibrationMissing _ => true
| .noData => true
| .emptyField => true
| .valueParseError => true
| .mathDomainError => false
| .zeroDivisionError => false

/-- v1 missing-pixel check: iterate the calibration dict and return on the
first anchor with `pixel is None`; the warning mentions only that key. -/
def firstMissingKey (c : Calibration) : Option String :=
  if c.x_min.pixel = none then some "x_min"
  else if c.x_max.pixel = none then some "x_max"
  else if c.y_min.pixel = none then some "y_min"
  else if c.y_max.pixel = none then some "y_max"
  else none

/-- v2 missing-pixel check: collect the display names of every anchor with
`pixel is None`, in dict order. -/
def missingNames (c : Calibration) : List String :=
  (if c.x_min.pixel = none then ["X Min"] else []) ++
  (if c.x_max.pixel = none then ["X Max"] else []) ++
  (if c.y_min.pixel = none then ["Y Min"] else []) ++
  (if c.y_max.pixel = none then ["Y Max"] else [])

/-- The four sequential assignments `cal[k]['val'] = float(in_k.text())`.  Each
assignment mutates the calibration before the next parse, so a later parse
failure leaves the earlier writes in place; the returned calibration is the
state at the moment `ValueError` (modelled by `none`) is raised. -/
def parsePhase (c : Calibration) (f : Fields) : Calibration × Option (ℚ × ℚ × ℚ × ℚ) :=
  match parseFloat f.in_xmin with
  | none => (c, none)
  | some a =>
    let c1 : Calibration := { c with x_min := { c.x_min with val := some a } }
    match parseFloat f.in_xmax with
    | none => (c1, none)
    | some b =>
      let c2 : Calibration := { c1 with x_max := { c1.x_max with val := some b } }
      match parseFloat f.in_ymin with
      | none => (c2, none)
      | some d =>
        let c3 : Calibration := { c2 with y_min := { c2.y_min with val := some d } }
        match parseFloat f.in_ymax with
        | none => (c3, none)
        | some e =>
          ({ c3 with y_max := { c3.y_max with val := some e } }, some (a, b, d, e))

/-- The per-axis pixel→value transform applied at export: for linear scale
`v1 + (p - p1) * (v2 - v1) / (p2 - p1)`; for log scale the anchor values are
first replaced by their base-10 logarithms and the result re-exponentiated
(`10 ** result`). -/
noncomputable def toRealValue (isLog : Bool) (p1 p2 v1 v2 p : ℚ) : ℝ :=
  if isLog then
    (10 : ℝ) ^ (Real.logb 10 (v1 : ℚ) +
      ((p : ℝ) - (p1 : ℚ)) * (Real.logb 10 (v2 : ℚ) - Real.logb 10 (v1 : ℚ)) /
        ((p2 : ℝ) - (p1 : ℚ)))
  else
    ((v1 : ℚ) : ℝ) + ((p : ℝ) - (p1 : ℚ)) * (((v2 : ℚ) : ℝ) - (v1 : ℚ)) /
      ((p2 : ℝ) - (p1 : ℚ))

/-- The reconstruction loop of `save_data` after values are parsed: `log10` of
the anchor values of a log axis runs first (raising `ValueError` on a
non-positive value, x axis before y axis), then each traced point is mapped
through both axis transforms; the division raises `ZeroDivisionError` on a
zero pixel span as soon as the first point is processed (x axis before y
axis). -/
noncomputable def computePoints (xLog yLog : Bool) (x1p x2p y1p y2p : ℚ)
    (xv1 xv2 yv1 yv2 : ℚ) (pts : List (ℚ × ℚ)) : Except SaveError (List (ℝ × ℝ)) :=
  if xLog ∧ (xv1 ≤ 0 ∨ xv2 ≤ 0) then .error .mathDomainError
  else if yLog ∧ (yv1 ≤ 0 ∨ yv2 ≤ 0) then .error .mathDomainError
  else if pts ≠ [] ∧ x2p = x1p then .error .zeroDivisionError
  else if pts ≠ [] ∧ y2p = y1p then .error .zeroDivisionError
  else .ok (pts.map (fun pq =>
    (toRealValue xLog x1p x2p xv1 xv2 pq.1, toRealValue yLog y1p y2p yv1 yv2 pq.2)))

/-- The `save_data` handler, parametrised by the missing-pixel check (the only
difference between v1 and v2).  Order of checks, as in the source: missing
anchor pixels, empty traced-point list, empty value fields, value parsing
(with its partial writes), then the reconstruction loop.  Returns the session
state after the run together with the outcome. -/
noncomputable def save_dataCore (missing : Calibration → Option (List String))
    (s : Session) (f : Fields) : Session × Except SaveError (List (ℝ × ℝ)) :=
  match missing s.cal with
  | some names => (s, .error (.calibrationMissing names))
  | none =>
    if s.data_points = [] then (s, .error .noData)
    else if f.in_xmin.isEmptyText ∨ f.in_xmax.isEmptyText ∨
        f.in_ymin.isEmptyText ∨ f.in_ymax.isEmptyText then
      (s, .error .emptyField)
    else
      match parsePhase s.cal f with
      | (c, none) => ({ s with cal := c }, .error .valueParseError)
      | (c, some (a, b, d, e)) =>
        ({ s with cal := c },
         computePoints s.x_log s.y_log
           (c.x_min.pixel.getD 0) (c.x_max.pixel.getD 0)
           (c.y_min.pixel.getD 0) (c.y_max.pixel.getD 0)
           a b d e s.data_points)

/-- `save_data` of UOP_CarbonTrace.py (v1). -/
noncomputable def save_dataV1 (s : Session) (f : Fields) :
    Session × Except SaveError (List (ℝ × ℝ)) :=
  save_dataCore (fun c => (firstMissingKey c).map (fun k => [k])) s f

/-- `save_data` of UOP_CarbonTrace_v2.py (v2). -/
noncomputable def save_dataV2 (s : Session) (f : Fields) :
    Session × Except SaveError (List (ℝ × ℝ)) :=
  save_dataCore (fun c => match missingNames c with
    | [] => none
    | ms => some ms) s f

/-- The CSV written on success: header `x,y`, then one line per reconstructed
point, formatted with the platform float-to-string function `fmt`. -/
def writeCsv (fmt : ℝ → String) (rows : List (ℝ × ℝ)) : List String :=
  "x,y" :: rows.map (fun r => fmt r.1 ++ "," ++ fmt r.2)

/-- Lines of the file produced by an export attempt: a failed run writes
nothing (the save dialog is only reached after the reconstruction loop). -/
def exportLines (fmt : ℝ → String) : Except SaveError (List (ℝ × ℝ)) → Option (List String)
| .ok rows => some (writeCsv fmt rows)
| .error _ => none

/-- On a fully calibrated session with all four value fields parseable,
`save_data` (v2) writes the four parsed values into the calibration and runs
the reconstruction loop. -/
theorem save_dataV2_complete (px1 px2 py1 py2 : ℚ) (w1 w2 w3 w4 : Option ℚ) (a b d e : ℚ)
    (pts : List (ℚ × ℚ)) (hpts : pts ≠ []) (xl yl : Bool) :
    save_dataV2 ⟨⟨⟨some px1, w1⟩, ⟨some px2, w2⟩, ⟨some py1, w3⟩, ⟨some py2, w4⟩⟩, pts, xl, yl⟩
        ⟨.num a, .num b, .num d, .num e⟩
      = (⟨⟨⟨some px1, some a⟩, ⟨some px2, some b⟩, ⟨some py1, some d⟩, ⟨some py2, some e⟩⟩,
          pts, xl, yl⟩,
         computePoints xl yl px1 px2 py1 py2 a b d e pts) := by
  simp [save_dataV2, save_dataCore, missingNames, parsePhase, parseFloat,
    FieldText.isEmptyText, hpts]

/-- The v2 missing-anchor list is empty exactly when all four anchor pixels
are set. -/
theorem missingNames_eq_nil (c : Calibration) :
    missingNames c = [] ↔
      (c.x_min.pixel ≠ none ∧ c.x_max.pixel ≠ none ∧
       c.y_min.pixel ≠ none ∧ c.y_max.pixel ≠ none) := by
  by_cases h1 : c.x_min.pixel = none <;> by_cases h2 : c.x_max.pixel = none <;>
    by_cases h3 : c.y_min.pixel = none <;> by_cases h4 : c.y_max.pixel = none <;>
    simp [missingNames, h1, h2, h3, h4]

/-- Claim C1: for a linear-scale axis with both anchors set and `pMin ≠ pMax`,
the pixel-to-value transform applied at export maps pixel `p` to
`vMin + (p - pMin) * (vMax - vMin) / (pMax - pMin)`; it is the affine function
satisfying `toRealValue pMin = vMin` and `toRealValue pMax = vMax` (and the
unique one of that kind), and with `pMin=0, pMax=100, vMin=0, vMax=50` pixel 50
maps to 25. -/
theorem linear_transform_spec (p1 p2 v1 v2 : ℚ) (hp : p1 ≠ p2) :
    (∀ p : ℚ, toRealValue false p1 p2 v1 v2 p
        = ((v1 : ℝ) + ((p : ℝ) - (p1 : ℝ)) * ((v2 : ℝ) - (v1 : ℝ)) / ((p2 : ℝ) - (p1 : ℝ)))) ∧
    toRealValue false p1 p2 v1 v2 p1 = (v1 : ℝ) ∧
    toRealValue false p1 p2 v1 v2 p2 = (v2 : ℝ) ∧
    (∀ a b : ℝ, a * (p1 : ℝ) + b = (v1 : ℝ) → a * (p2 : ℝ) + b = (v2 : ℝ) →
      ∀ p : ℚ, a * (p : ℝ) + b = toRealValue false p1 p2 v1 v2 p) ∧
    toRealValue false 0 100 0 50 50 = 25 := by
  have hpR : ((p1 : ℚ) : ℝ) ≠ ((p2 : ℚ) : ℝ) := by exact_mod_cast hp
  have hsub : ((p2 : ℚ) : ℝ) - ((p1 : ℚ) : ℝ) ≠ 0 := sub_ne_zero_of_ne (Ne.symm hpR)
  refine ⟨fun p => by simp [toRealValue], by simp [toRealValue], ?_, ?_, ?_⟩
  · simp only [toRealValue, Bool.false_eq_true, if_false]
    field_simp
  · intro a b h1 h2 p
    simp only [toRealValue, Bool.false_eq_true, if_false]
    field_simp
    linear_combination (((p2 : ℚ) : ℝ) - (p : ℚ)) * h1 + (((p : ℚ) : ℝ) - (p1 : ℚ)) * h2
  · simp [toRealValue]
    norm_num

/-- Witness for C1: the concrete instance of the claim, obtained from the
theorem at `pMin=0, pMax=100, vMin=0, vMax=50`, pixel 50. -/
theorem linear_transform_spec_witness : toRealValue false 0 100 0 50 50 = 25 :=
  (linear_transform_spec 0 100 0 50 (by norm_num)).2.2.2.2

/-- Claim C2: for a logarithmic-scale axis with both anchor values strictly
positive and `pMin ≠ pMax`, the transform is 10 raised to the affine
interpolation of the base-10 logarithms of `vMin` and `vMax`; with
`vMin=1, vMax=1000, pMin=0, pMax=3`, pixel 1 maps to 10 and pixel 2 maps
to 100. -/
theorem log_transform_spec (p1 p2 v1 v2 : ℚ) (_hp : p1 ≠ p2) (_h1 : 0 < v1) (_h2 : 0 < v2) :
    (∀ p : ℚ, toRealValue true p1 p2 v1 v2 p
        = (10 : ℝ) ^ (Real.logb 10 (v1 : ℝ) +
            ((p : ℝ) - (p1 : ℝ)) * (Real.logb 10 (v2 : ℝ) - Real.logb 10 (v1 : ℝ)) /
              ((p2 : ℝ) - (p1 : ℝ)))) ∧
    toRealValue true 0 3 1 1000 1 = 10 ∧
    toRealValue true 0 3 1 1000 2 = 100 := by
  have hlog1R : Real.logb 10 (1 : ℝ) = 0 := Real.logb_one
  have h1000 : (1000 : ℝ) = (10 : ℝ) ^ (3 : ℝ) := by
    rw [show (3 : ℝ) = ((3 : ℕ) : ℝ) by norm_num, Real.rpow_natCast]
    norm_num
  have hlog1000R : Real.logb 10 (1000 : ℝ) = 3 := by
    rw [h1000, Real.logb_rpow (by norm_num) (by norm_num)]
  refine ⟨fun p => by simp [toRealValue], ?_, ?_⟩
  · simp only [toRealValue, if_true]
    push_cast
    rw [hlog1R, hlog1000R]
    rw [show (0 : ℝ) + (1 - 0) * (3 - 0) / (3 - 0) = (1 : ℝ) by norm_num]
    exact Real.rpow_one 10
  · simp only [toRealValue, if_true]
    push_cast
    rw [hlog1R, hlog1000R]
    rw [show (0 : ℝ) + (2 - 0) * (3 - 0) / (3 - 0) = ((2 : ℕ) : ℝ) by norm_num,
      Real.rpow_natCast]
    norm_num

/-- Witness for C2: pixel 1 maps to 10 under the concrete log calibration of
the claim. -/
theorem log_transform_spec_witness : toRealValue true 0 3 1 1000 1 = 10 :=
  (log_transform_spec 0 3 1 1000 (by norm_num) (by norm_num) (by norm_num)).2.1

/-- The value-parsing phase never touches the anchor `pixel` fields. -/
theorem parsePhase_pixels (c : Calibration) (f : Fields) :
    (parsePhase c f).1.x_min.pixel = c.x_min.pixel ∧
    (parsePhase c f).1.x_max.pixel = c.x_max.pixel ∧
    (parsePhase c f).1.y_min.pixel = c.y_min.pixel ∧
    (parsePhase c f).1.y_max.pixel = c.y_max.pixel := by
  unfold parsePhase
  cases parseFloat f.in_xmin <;> cases parseFloat f.in_xmax <;>
    cases parseFloat f.in_ymin <;> cases parseFloat f.in_ymax <;> simp

/-- The reconstruction loop can only fail with the two exception-style
errors. -/
theorem computePoints_error (xl yl : Bool) (x1p x2p y1p y2p a b d e : ℚ)
    (pts : List (ℚ × ℚ)) (er : SaveError)
    (h : computePoints xl yl x1p x2p y1p y2p a b d e pts = .error er) :
    er = .mathDomainError ∨ er = .zeroDivisionError := by
  unfold computePoints at h
  split at h
  · simp_all
  · split at h
    · simp_all
    · split at h
      · simp_all
      · split at h <;> simp_all

/-- State effects of a `save_data` run (either version): traced points, scale
flags and anchor pixels are never modified, and any failure arising before the
value-parsing phase leaves the whole session unchanged. -/
theorem save_dataCore_state (missing : Calibration → Option (List String))
    (s : Session) (f : Fields) :
    (save_dataCore missing s f).1.data_points = s.data_points ∧
    (save_dataCore missing s f).1.x_log = s.x_log ∧
    (save_dataCore missing s f).1.y_log = s.y_log ∧
    (save_dataCore missing s f).1.cal.x_min.pixel = s.cal.x_min.pixel ∧
    (save_dataCore missing s f).1.cal.x_max.pixel = s.cal.x_max.pixel ∧
    (save_dataCore missing s f).1.cal.y_min.pixel = s.cal.y_min.pixel ∧
    (save_dataCore missing s f).1.cal.y_max.pixel = s.cal.y_max.pixel ∧
    (∀ names, (save_dataCore missing s f).2 = .error (.calibrationMissing names) →
      (save_dataCore missing s f).1 = s) ∧
    ((save_dataCore missing s f).2 = .error .noData → (save_dataCore missing s f).1 = s) ∧
    ((save_dataCore missing s f).2 = .error .emptyField → (save_dataCore missing s f).1 = s) := by
  have hpx := parsePhase_pixels s.cal f
  unfold save_dataCore
  cases hms : missing s.cal with
  | some names => simp
  | none =>
    by_cases hdp : s.data_points = []
    · simp [hdp]
    · by_cases hemp : (f.in_xmin.isEmptyText ∨ f.in_xmax.isEmptyText ∨
          f.in_ymin.isEmptyText ∨ f.in_ymax.isEmptyText : Prop)
      · simp [hdp, hemp]
      · rcases hpp : parsePhase s.cal f with ⟨c, r⟩
        rw [hpp] at hpx
        simp only at hpx
        cases r with
        | none => simp [hdp, hemp, hpp, hpx.1, hpx.2.1, hpx.2.2.1, hpx.2.2.2]
        | some q =>
          rcases q with ⟨a, ⟨b, ⟨d, e⟩⟩⟩
          simp [hdp, hemp, hpp, hpx.1, hpx.2.1, hpx.2.2.1, hpx.2.2.2]
          refine ⟨?_, ?_, ?_⟩
          · intro names hcomp
            rcases computePoints_error _ _ _ _ _ _ _ _ _ _ _ _ hcomp with h | h <;> simp_all
          · intro hcomp
            rcases computePoints_error _ _ _ _ _ _ _ _ _ _ _ _ hcomp with h | h <;> simp_all
          · intro hcomp
            rcases computePoints_error _ _ _ _ _ _ _ _ _ _ _ _ hcomp with h | h <;> simp_all

/-- Counterexample to claim C3: on a fully calibrated linear session whose two
x anchors share the pixel coordinate 10, the export fails with the unhandled
`ZeroDivisionError` exception; there is no `DomainError` anywhere in the code
and the failure is not reported to the user. -/
theorem zero_span_unreported_cex :
    (save_dataV2 ⟨⟨⟨some 10, none⟩, ⟨some 10, none⟩, ⟨some 0, none⟩, ⟨some 100, none⟩⟩,
        [(5, 5)], false, false⟩ ⟨.num 0, .num 1, .num 0, .num 1⟩).2
      = .error .zeroDivisionError ∧
    SaveError.isReported .zeroDivisionError = false := by
  constructor
  · simp [save_dataV2, save_dataCore, missingNames, parsePhase, parseFloat, computePoints,
      FieldText.isEmptyText]
  · rfl

/-- Claim C3, amended: a zero pixel span, or a non-positive anchor value on a
log axis, makes the export fail — it never produces values — but the failure
is an unhandled Python exception (`ValueError` from `log10`, or
`ZeroDivisionError` from the division), not a reported `DomainError`. -/
theorem domain_failure_amended (px1 px2 py1 py2 : ℚ) (w1 w2 w3 w4 : Option ℚ) (a b d e : ℚ)
    (pts : List (ℚ × ℚ)) (hpts : pts ≠ []) (xl yl : Bool) :
    ((xl = true ∧ (a ≤ 0 ∨ b ≤ 0)) →
      (save_dataV2 ⟨⟨⟨some px1, w1⟩, ⟨some px2, w2⟩, ⟨some py1, w3⟩, ⟨some py2, w4⟩⟩,
          pts, xl, yl⟩ ⟨.num a, .num b, .num d, .num e⟩).2 = .error .mathDomainError) ∧
    (¬(xl = true ∧ (a ≤ 0 ∨ b ≤ 0)) → (yl = true ∧ (d ≤ 0 ∨ e ≤ 0)) →
      (save_dataV2 ⟨⟨⟨some px1, w1⟩, ⟨some px2, w2⟩, ⟨some py1, w3⟩, ⟨some py2, w4⟩⟩,
          pts, xl, yl⟩ ⟨.num a, .num b, .num d, .num e⟩).2 = .error .mathDomainError) ∧
    (¬(xl = true ∧ (a ≤ 0 ∨ b ≤ 0)) → ¬(yl = true ∧ (d ≤ 0 ∨ e ≤ 0)) → px2 = px1 →
      (save_dataV2 ⟨⟨⟨some px1, w1⟩, ⟨some px2, w2⟩, ⟨some py1, w3⟩, ⟨some py2, w4⟩⟩,
          pts, xl, yl⟩ ⟨.num a, .num b, .num d, .num e⟩).2 = .error .zeroDivisionError) ∧
    (¬(xl = true ∧ (a ≤ 0 ∨ b ≤ 0)) → ¬(yl = true ∧ (d ≤ 0 ∨ e ≤ 0)) → px2 ≠ px1 →
        py2 = py1 →
      (save_dataV2 ⟨⟨⟨some px1, w1⟩, ⟨some px2, w2⟩, ⟨some py1, w3⟩, ⟨some py2, w4⟩⟩,
          pts, xl, yl⟩ ⟨.num a, .num b, .num d, .num e⟩).2 = .error .zeroDivisionError) ∧
    SaveError.isReported .mathDomainError = false ∧
    SaveError.isReported .zeroDivisionError = false := by
  have hb := save_dataV2_complete px1 px2 py1 py2 w1 w2 w3 w4 a b d e pts hpts xl yl
  rw [hb]
  refine ⟨?_, ?_, ?_, ?_, rfl, rfl⟩
  · intro hx
    simp [computePoints, hx]
  · intro hx hy
    simp [computePoints, hx, hy]
  · intro hx hy hpx
    simp [computePoints, hx, hy, hpx, hpts]
  · intro hx hy hpx hpy
    simp [computePoints, hx, hy, hpx, hpy, hpts]

/-- Witness for the amended C3: a log x-axis with anchor value 0 fails with the
unhandled math-domain `ValueError`. -/
theorem domain_failure_amended_witness :
    (save_dataV2 ⟨⟨⟨some 0, none⟩, ⟨some 3, none⟩, ⟨some 0, none⟩, ⟨some 1, none⟩⟩,
        [(1, 1)], true, false⟩ ⟨.num 0, .num 1000, .num 1, .num 2⟩).2
      = .error .mathDomainError :=
  (domain_failure_amended 0 3 0 1 none none none none 0 1000 1 2 [(1, 1)]
      (by simp) true false).1 ⟨rfl, Or.inl (by norm_num)⟩

/-- Counterexample to claim C4: in v1, with both `x_min` and `y_max` anchor
pixels unset, the failure mentions only the first missing key, not all of
them. -/
theorem missing_anchor_enumeration_cex :
    (save_dataV1 ⟨⟨⟨none, none⟩, ⟨some 1, none⟩, ⟨some 2, none⟩, ⟨none, none⟩⟩,
        [(1, 1)], false, false⟩ ⟨.num 0, .num 1, .num 0, .num 1⟩).2
      = .error (.calibrationMissing ["x_min"]) ∧
    ¬("Y Max" ∈ (["x_min"] : List String) ∨ "y_max" ∈ (["x_min"] : List String)) := by
  constructor
  · simp [save_dataV1, save_dataCore, firstMissingKey]
  · simp

/-- Claim C4, amended: the missing-anchor check runs before any point or value
field is touched and leaves the session unchanged; in v2 the failure
enumerates the display names of exactly the unset anchors (in dict order), so
with only `y_max` unset the error mentions `Y Max` only; in v1 some anchor key
is always reported, it is the first missing key in dict order
(`x_min, x_max, y_min, y_max` — characterised exactly for each of the four
keys), and the failure mentions only that key. -/
theorem missing_anchor_amended (c : Calibration) (pts : List (ℚ × ℚ)) (xl yl : Bool)
    (f : Fields) (h : missingNames c ≠ []) :
    save_dataV2 ⟨c, pts, xl, yl⟩ f
      = (⟨c, pts, xl, yl⟩, .error (.calibrationMissing (missingNames c))) ∧
    ("X Min" ∈ missingNames c ↔ c.x_min.pixel = none) ∧
    ("X Max" ∈ missingNames c ↔ c.x_max.pixel = none) ∧
    ("Y Min" ∈ missingNames c ↔ c.y_min.pixel = none) ∧
    ("Y Max" ∈ missingNames c ↔ c.y_max.pixel = none) ∧
    (∃ k, firstMissingKey c = some k) ∧
    (∀ k, firstMissingKey c = some k →
      save_dataV1 ⟨c, pts, xl, yl⟩ f
        = (⟨c, pts, xl, yl⟩, .error (.calibrationMissing [k]))) ∧
    (firstMissingKey c = some "x_min" ↔ c.x_min.pixel = none) ∧
    (firstMissingKey c = some "x_max" ↔
      (c.x_min.pixel ≠ none ∧ c.x_max.pixel = none)) ∧
    (firstMissingKey c = some "y_min" ↔
      (c.x_min.pixel ≠ none ∧ c.x_max.pixel ≠ none ∧ c.y_min.pixel = none)) ∧
    (firstMissingKey c = some "y_max" ↔
      (c.x_min.pixel ≠ none ∧ c.x_max.pixel ≠ none ∧ c.y_min.pixel ≠ none ∧
       c.y_max.pixel = none)) ∧
    (c.x_min.pixel = none →
      save_dataV1 ⟨c, pts, xl, yl⟩ f
        = (⟨c, pts, xl, yl⟩, .error (.calibrationMissing ["x_min"]))) := by
  have hmem : ("X Min" ∈ missingNames c ↔ c.x_min.pixel = none) ∧
      ("X Max" ∈ missingNames c ↔ c.x_max.pixel = none) ∧
      ("Y Min" ∈ missingNames c ↔ c.y_min.pixel = none) ∧
      ("Y Max" ∈ missingNames c ↔ c.y_max.pixel = none) := by
    by_cases h1 : c.x_min.pixel = none <;> by_cases h2 : c.x_max.pixel = none <;>
      by_cases h3 : c.y_min.pixel = none <;> by_cases h4 : c.y_max.pixel = none <;>
      simp [missingNames, h1, h2, h3, h4]
  have hch : (firstMissingKey c = some "x_min" ↔ c.x_min.pixel = none) ∧
      (firstMissingKey c = some "x_max" ↔
        (c.x_min.pixel ≠ none ∧ c.x_max.pixel = none)) ∧
      (firstMissingKey c = some "y_min" ↔
        (c.x_min.pixel ≠ none ∧ c.x_max.pixel ≠ none ∧ c.y_min.pixel = none)) ∧
      (firstMissingKey c = some "y_max" ↔
        (c.x_min.pixel ≠ none ∧ c.x_max.pixel ≠ none ∧ c.y_min.pixel ≠ none ∧
         c.y_max.pixel = none)) := by
    by_cases h1 : c.x_min.pixel = none <;> by_cases h2 : c.x_max.pixel = none <;>
      by_cases h3 : c.y_min.pixel = none <;> by_cases h4 : c.y_max.pixel = none <;>
      simp [firstMissingKey, h1, h2, h3, h4]
  have hex : ∃ k, firstMissingKey c = some k := by
    by_cases h1 : c.x_min.pixel = none
    · exact ⟨"x_min", by simp [firstMissingKey, h1]⟩
    · by_cases h2 : c.x_max.pixel = none
      · exact ⟨"x_max", by simp [firstMissingKey, h1, h2]⟩
      · by_cases h3 : c.y_min.pixel = none
        · exact ⟨"y_min", by simp [firstMissingKey, h1, h2, h3]⟩
        · by_cases h4 : c.y_max.pixel = none
          · exact ⟨"y_max", by simp [firstMissingKey, h1, h2, h3, h4]⟩
          · exact absurd ((missingNames_eq_nil c).mpr ⟨h1, h2, h3, h4⟩) h
  have hv1 : ∀ k, firstMissingKey c = some k →
      save_dataV1 ⟨c, pts, xl, yl⟩ f
        = (⟨c, pts, xl, yl⟩, .error (.calibrationMissing [k])) := by
    intro k hk
    simp [save_dataV1, save_dataCore, hk]
  refine ⟨?_, hmem.1, hmem.2.1, hmem.2.2.1, hmem.2.2.2, hex, hv1,
    hch.1, hch.2.1, hch.2.2.1, hch.2.2.2, ?_⟩
  · cases hm : missingNames c with
    | nil => exact absurd hm h
    | cons x xs => simp [save_dataV2, save_dataCore, hm]
  · intro h1
    exact hv1 "x_min" (hch.1.mpr h1)

/-- Witness for the amended C4: with only `y_max` unset (the claim's own
example configuration), the v2 failure mentions `Y Max` only and the v1
failure mentions exactly the first (and only) missing key `y_max`; the
session is unchanged in both. -/
theorem missing_anchor_amended_witness :
    save_dataV2 ⟨⟨⟨some 0, none⟩, ⟨some 1, none⟩, ⟨some 2, none⟩, ⟨none, none⟩⟩, [], false, false⟩
        ⟨.empty, .empty, .empty, .empty⟩
      = (⟨⟨⟨some 0, none⟩, ⟨some 1, none⟩, ⟨some 2, none⟩, ⟨none, none⟩⟩, [], false, false⟩,
         .error (.calibrationMissing ["Y Max"])) ∧
    save_dataV1 ⟨⟨⟨some 0, none⟩, ⟨some 1, none⟩, ⟨some 2, none⟩, ⟨none, none⟩⟩, [], false, false⟩
        ⟨.empty, .empty, .empty, .empty⟩
      = (⟨⟨⟨some 0, none⟩, ⟨some 1, none⟩, ⟨some 2, none⟩, ⟨none, none⟩⟩, [], false, false⟩,
         .error (.calibrationMissing ["y_max"])) := by
  have h := missing_anchor_amended
      ⟨⟨some 0, none⟩, ⟨some 1, none⟩, ⟨some 2, none⟩, ⟨none, none⟩⟩
      [] false false ⟨.empty, .empty, .empty, .empty⟩ (by simp [missingNames])
  constructor
  · have h1 := h.1
    simpa [missingNames] using h1
  · exact h.2.2.2.2.2.2.1 "y_max" (by simp [firstMissingKey])

/-- Counterexample to claim C8: a parse failure on the third value field
leaves the first two parsed values written into the calibration, so the
session state after the failed export differs from the state before it. -/
theorem partial_write_cex :
    ((save_dataV2 ⟨⟨⟨some 0, none⟩, ⟨some 1, none⟩, ⟨some 0, none⟩, ⟨some 1, none⟩⟩,
        [(1, 1)], false, false⟩ ⟨.num 7, .num 8, .invalid, .num 9⟩).2
      = .error .valueParseError) ∧
    (save_dataV2 ⟨⟨⟨some 0, none⟩, ⟨some 1, none⟩, ⟨some 0, none⟩, ⟨some 1, none⟩⟩,
        [(1, 1)], false, false⟩ ⟨.num 7, .num 8, .invalid, .num 9⟩).1.cal.x_min.val = some 7 ∧
    (⟨⟨⟨some 0, none⟩, ⟨some 1, none⟩, ⟨some 0, none⟩, ⟨some 1, none⟩⟩,
        [(1, 1)], false, false⟩ : Session).cal.x_min.val = none ∧
    some (7 : ℚ) ≠ none := by
  refine ⟨?_, ?_, rfl, by simp⟩ <;>
    simp [save_dataV2, save_dataCore, missingNames, parsePhase, parseFloat,
      FieldText.isEmptyText]

/-- Claim C8, amended: no operation ever modifies the traced points, the scale
flags or the anchor pixels; failures raised before value parsing (missing
anchors, empty point list, empty fields) leave the whole session unchanged,
and a failed colour extraction leaves the point list unchanged — but a parse
failure during export may leave earlier anchor values partially written. -/
theorem state_preservation_amended (s : Session) (f : Fields) (img : Image)
    (inp : ColorInputs) (pts : List (ℚ × ℚ)) :
    (save_dataV2 s f).1.data_points = s.data_points ∧
    (save_dataV1 s f).1.data_points = s.data_points ∧
    (save_dataV2 s f).1.x_log = s.x_log ∧
    (save_dataV2 s f).1.y_log = s.y_log ∧
    (save_dataV2 s f).1.cal.x_min.pixel = s.cal.x_min.pixel ∧
    (save_dataV2 s f).1.cal.x_max.pixel = s.cal.x_max.pixel ∧
    (save_dataV2 s f).1.cal.y_min.pixel = s.cal.y_min.pixel ∧
    (save_dataV2 s f).1.cal.y_max.pixel = s.cal.y_max.pixel ∧
    ((save_dataV2 s f).2 = .error .noData → (save_dataV2 s f).1 = s) ∧
    ((save_dataV2 s f).2 = .error .emptyField → (save_dataV2 s f).1 = s) ∧
    (∀ names, (save_dataV2 s f).2 = .error (.calibrationMissing names) →
      (save_dataV2 s f).1 = s) ∧
    ((select_by_color img inp pts).2 = .error .invalidColorInputs →
      (select_by_color img inp pts).1 = pts) := by
  have h2 := save_dataCore_state
    (fun c => match missingNames c with | [] => none | ms => some ms) s f
  have h1 := save_dataCore_state
    (fun c => (firstMissingKey c).map (fun k => [k])) s f
  have hsel : (select_by_color img inp pts).2 = .error .invalidColorInputs →
      (select_by_color img inp pts).1 = pts := by
    rcases inp with ⟨r, g, b, t⟩
    cases r <;> cases g <;> cases b <;> cases t <;> simp [select_by_color]
  exact ⟨h2.1, h1.1, h2.2.1, h2.2.2.1, h2.2.2.2.1, h2.2.2.2.2.1, h2.2.2.2.2.2.1,
    h2.2.2.2.2.2.2.1, h2.2.2.2.2.2.2.2.2.1, h2.2.2.2.2.2.2.2.2.2, h2.2.2.2.2.2.2.2.1, hsel⟩

/-- Witness for the amended C8: a failed export on an empty point list leaves
the concrete session unchanged. -/
theorem state_preservation_amended_witness :
    (save_dataV2 ⟨⟨⟨some 0, none⟩, ⟨some 1, none⟩, ⟨some 0, none⟩, ⟨some 1, none⟩⟩,
        [], false, false⟩ ⟨.num 1, .num 2, .num 3, .num 4⟩).1
      = ⟨⟨⟨some 0, none⟩, ⟨some 1, none⟩, ⟨some 0, none⟩, ⟨some 1, none⟩⟩,
        [], false, false⟩ :=
  (state_preservation_amended
      ⟨⟨⟨some 0, none⟩, ⟨some 1, none⟩, ⟨some 0, none⟩, ⟨some 1, none⟩⟩, [], false, false⟩
      ⟨.num 1, .num 2, .num 3, .num 4⟩ [] ⟨none, none, none, none⟩ []).2.2.2.2.2.2.2.2.1
    (by simp [save_dataV2, save_dataCore, missingNames])

/-- Claim C10: export with an empty traced-point list (and all anchor pixels
set) fails with the no-data error in both versions, independently of the value
fields (so before any parsing of them), leaving the session unchanged and
writing no CSV file at all. -/
theorem empty_points_early_failure (c : Calibration) (xl yl : Bool) (f : Fields)
    (fmt : ℝ → String) (hc : missingNames c = []) :
    save_dataV2 ⟨c, [], xl, yl⟩ f = (⟨c, [], xl, yl⟩, .error .noData) ∧
    save_dataV1 ⟨c, [], xl, yl⟩ f = (⟨c, [], xl, yl⟩, .error .noData) ∧
    exportLines fmt (save_dataV2 ⟨c, [], xl, yl⟩ f).2 = none ∧
    SaveError.isReported .noData = true := by
  obtain ⟨h1, h2, h3, h4⟩ := (missingNames_eq_nil c).mp hc
  have hv2 : save_dataV2 ⟨c, [], xl, yl⟩ f = (⟨c, [], xl, yl⟩, .error .noData) := by
    simp [save_dataV2, save_dataCore, hc]
  have hfk : firstMissingKey c = none := by
    simp [firstMissingKey, h1, h2, h3, h4]
  refine ⟨hv2, ?_, by rw [hv2]; rfl, rfl⟩
  simp [save_dataV1, save_dataCore, hfk]

/-- Witness for C10: concrete empty-list export fails with the no-data error
even though two value fields are unparseable and one is empty. -/
theorem empty_points_early_failure_witness :
    save_dataV2 ⟨⟨⟨some 0, none⟩, ⟨some 1, none⟩, ⟨some 0, none⟩, ⟨some 1, none⟩⟩,
        [], true, true⟩ ⟨.invalid, .num 3, .empty, .invalid⟩
      = (⟨⟨⟨some 0, none⟩, ⟨some 1, none⟩, ⟨some 0, none⟩, ⟨some 1, none⟩⟩, [], true, true⟩,
         .error .noData) :=
  (empty_points_early_failure
      ⟨⟨some 0, none⟩, ⟨some 1, none⟩, ⟨some 0, none⟩, ⟨some 1, none⟩⟩ true true
      ⟨.invalid, .num 3, .empty, .invalid⟩ (fun _r => "") (by simp [missingNames])).1

/-- Membership in the row-major match list is exactly the in-bounds strict
distance test at that pixel. -/
theorem mem_matchCoords (img : Image) (t : ℚ × ℚ × ℚ) (tol : ℚ) (y x : ℕ) :
    (y, x) ∈ matchCoords img t tol ↔
      y < img.length ∧ x < (img.getD y []).length ∧
        isMatch (pixelRGB ((img.getD y []).getD x [])) t tol := by
  unfold matchCoords
  simp [List.mem_flatMap, List.mem_map, List.mem_filter, List.mem_range]

/-- With a non-positive tolerance the strict comparison `dist < tol` matches
no pixel at all. -/
theorem matchCoords_eq_nil (img : Image) (t : ℚ × ℚ × ℚ) (tol : ℚ) (htol : tol ≤ 0) :
    matchCoords img t tol = [] := by
  unfold matchCoords
  rw [List.flatMap_eq_nil_iff]
  intro y hy
  have hfil : (List.range ((img.getD y []).length)).filter
      (fun x => decide (isMatch (pixelRGB ((img.getD y []).getD x [])) t tol)) = [] := by
    rw [List.filter_eq_nil_iff]
    intro x hx
    simp only [decide_eq_true_eq]
    intro hm
    exact absurd ((isMatch_iff _ _ _).mp hm).1 (not_lt.mpr htol)
  rw [hfil]
  rfl

/-- Filtering a duplicate-free list of naturals for one value yields that
value once, or nothing. -/
theorem filter_beq_of_nodup (m : List ℕ) (hm : m.Nodup) (x : ℕ) :
    m.filter (fun a => a == x) = if x ∈ m then [x] else [] := by
  induction m with
  | nil => simp
  | cons a l ih =>
    rcases List.nodup_cons.mp hm with ⟨ha, hl⟩
    by_cases hax : a = x
    · subst hax
      simp [List.filter_cons, ih hl, ha]
    · simp [List.filter_cons, hax, ih hl, Ne.symm hax]

/-- Flattening singleton-or-empty blocks is a filtered map. -/
theorem flatMap_ite_singleton {α : Type} (l : List ℕ) (p : ℕ → Bool) (f : ℕ → α) :
    (l.flatMap (fun y => if p y then [f y] else [])) = (l.filter p).map f := by
  induction l with
  | nil => simp
  | cons a l ih =>
    by_cases hp : p a <;> simp [List.filter_cons, hp, ih]

/-- Restricting the row-major match list to one column yields exactly that
column's matched rows, in ascending row order. -/
theorem matchCoords_filter_col (img : Image) (t : ℚ × ℚ × ℚ) (tol : ℚ) (x : ℕ) :
    (matchCoords img t tol).filter (fun q => q.2 == x)
      = (colRows img t tol x).map (fun y => (y, x)) := by
  unfold colRows
  conv_lhs => rw [matchCoords]
  rw [List.filter_flatMap]
  have hcong : ∀ y ∈ List.range img.length,
      (((List.range ((img.getD y []).length)).filter
          (fun x2 => decide (isMatch (pixelRGB ((img.getD y []).getD x2 [])) t tol))).map
          (fun x2 => (y, x2))).filter (fun q => q.2 == x)
        = if decide ((y, x) ∈ matchCoords img t tol) then [(y, x)] else [] := by
    intro y hy
    rw [List.filter_map]
    rw [show ((fun q : ℕ × ℕ => q.2 == x) ∘ (fun x2 => (y, x2))) = (fun x2 => x2 == x)
      from rfl]
    rw [filter_beq_of_nodup _ (List.Nodup.filter _ (List.nodup_range _)) x]
    by_cases hx : x ∈ (List.range ((img.getD y []).length)).filter
        (fun x2 => decide (isMatch (pixelRGB ((img.getD y []).getD x2 [])) t tol))
    · have hmem : (y, x) ∈ matchCoords img t tol := by
        rw [mem_matchCoords]
        rcases List.mem_filter.mp hx with ⟨hr, hm⟩
        exact ⟨List.mem_range.mp hy, List.mem_range.mp hr, of_decide_eq_true hm⟩
      rw [if_pos hx, if_pos (decide_eq_true hmem)]
      simp
    · have hmem : ¬((y, x) ∈ matchCoords img t tol) := by
        rw [mem_matchCoords]
        rintro ⟨h1, h2, h3⟩
        exact hx (List.mem_filter.mpr ⟨List.mem_range.mpr h2, decide_eq_true h3⟩)
      rw [if_neg hx, if_neg (fun hc => hmem (of_decide_eq_true hc))]
      simp
  rw [List.flatMap_congr hcong]
  exact flatMap_ite_singleton _ _ _

/-- The per-column mean computed from the row-major scan equals the mean of
the column's matched rows. -/
theorem colMean_eq (img : Image) (t : ℚ × ℚ × ℚ) (tol : ℚ) (x : ℕ) :
    colMean (matchCoords img t tol) x
      = ((colRows img t tol x).map (fun y : ℕ => (y : ℚ))).sum /
          ((colRows img t tol x).length : ℚ) := by
  unfold colMean
  rw [matchCoords_filter_col, List.map_map]
  simp only [List.length_map]
  rfl

/-- Counterexample to claim C5: on the claim's own 3×3 image with an
exactly-matching target, zero tolerance returns no points at all, because the
code compares `dist < tol` strictly. -/
theorem color_zero_tolerance_cex :
    (select_by_color
        [[[0,0,0],[1,1,1],[1,1,1]], [[1,1,1],[0,0,0],[1,1,1]], [[0,0,0],[1,1,1],[1,1,1]]]
        ⟨some 0, some 0, some 0, some 0⟩ []).2 = .ok [] ∧
    (Except.ok ([] : List (ℚ × ℚ)) : Except ColorError (List (ℚ × ℚ)))
      ≠ Except.ok [((0 : ℚ), (1 : ℚ)), ((1 : ℚ), (1 : ℚ))] := by
  constructor
  · norm_num [select_by_color, extractPoints, matchCoords, uniqueSorted, colMean, pixelRGB,
      isMatch_iff, List.range_succ, List.dedup, List.insertionSort, List.orderedInsert]
  · simp

/-- Claim C5, amended: a pixel is marked as a match exactly when its RGB is
strictly within Euclidean distance `tolerance` of the normalized target (a
pixel at exactly the tolerance distance, in particular any pixel under zero
tolerance, is not matched); on the claim's 3×3 image an exactly-matching
target with any small positive tolerance (here 10 percent) returns
`[(0, 1), (1, 1)]`. -/
theorem color_match_strict_amended (img : Image) (t : ℚ × ℚ × ℚ) (tol : ℚ) (y x : ℕ) :
    ((y, x) ∈ matchCoords img t tol ↔
      y < img.length ∧ x < (img.getD y []).length ∧
        colorDist (pixelRGB ((img.getD y []).getD x [])) t < (tol : ℝ)) ∧
    (select_by_color
        [[[0,0,0],[1,1,1],[1,1,1]], [[1,1,1],[0,0,0],[1,1,1]], [[0,0,0],[1,1,1],[1,1,1]]]
        ⟨some 0, some 0, some 0, some 10⟩ []).1 = [(0, 1), (1, 1)] := by
  constructor
  · exact mem_matchCoords img t tol y x
  · norm_num [select_by_color, extractPoints, matchCoords, uniqueSorted, colMean, pixelRGB,
      isMatch_iff, List.range_succ, List.dedup, List.insertionSort, List.orderedInsert]

/-- Claim C6: the colour scan emits exactly one candidate point per pixel
column that has at least one match — the emitted first coordinates are
strictly increasing (so there are no duplicate columns and the order is
ascending), a column appears among them exactly when it has a matched pixel,
and the emitted vertical coordinate of a column is the arithmetic mean of the
matched row indices of that column. -/
theorem per_column_collapse (img : Image) (t : ℚ × ℚ × ℚ) (tol : ℚ) :
    List.Sorted (fun u v : ℚ => u < v) ((extractPoints img t tol).map Prod.fst) ∧
    (∀ x : ℕ, ((x : ℚ) ∈ (extractPoints img t tol).map Prod.fst ↔
      ∃ y : ℕ, (y, x) ∈ matchCoords img t tol)) ∧
    (∀ x : ℕ, (∃ y : ℕ, (y, x) ∈ matchCoords img t tol) →
      ((x : ℚ), ((colRows img t tol x).map (fun y : ℕ => (y : ℚ))).sum /
          ((colRows img t tol x).length : ℚ)) ∈ extractPoints img t tol) ∧
    (∀ x : ℕ, ∀ q : ℚ, ((x : ℚ), q) ∈ extractPoints img t tol →
      q = ((colRows img t tol x).map (fun y : ℕ => (y : ℚ))).sum /
          ((colRows img t tol x).length : ℚ)) := by
  have hmapfst : (extractPoints img t tol).map Prod.fst
      = (uniqueSorted ((matchCoords img t tol).map Prod.snd)).map (fun ux : ℕ => (ux : ℚ)) := by
    unfold extractPoints
    rw [List.map_map]
    rfl
  have hsortle : List.Sorted (fun a b : ℕ => a ≤ b)
      (uniqueSorted ((matchCoords img t tol).map Prod.snd)) :=
    List.sorted_insertionSort _ _
  have hnd : (uniqueSorted ((matchCoords img t tol).map Prod.snd)).Nodup :=
    (List.perm_insertionSort _ _).nodup_iff.mpr (List.nodup_dedup _)
  have hsortlt := List.Sorted.lt_of_le hsortle hnd
  have hmemUS : ∀ x : ℕ, x ∈ uniqueSorted ((matchCoords img t tol).map Prod.snd)
      ↔ x ∈ (matchCoords img t tol).map Prod.snd := fun x =>
    (List.perm_insertionSort _ _).mem_iff.trans List.mem_dedup
  refine ⟨?_, ?_, ?_, ?_⟩
  · rw [hmapfst]
    exact List.Pairwise.map _ (fun a b h => Nat.cast_lt.mpr h) hsortlt
  · intro x
    rw [hmapfst, List.mem_map]
    constructor
    · rintro ⟨x2, hx2, hcast⟩
      have hxx : x2 = x := Nat.cast_injective hcast
      subst hxx
      rcases List.mem_map.mp ((hmemUS x2).mp hx2) with ⟨qq, hq, hq2⟩
      refine ⟨qq.1, ?_⟩
      rw [← hq2, Prod.mk.eta]
      exact hq
    · rintro ⟨y, hy⟩
      exact ⟨x, (hmemUS x).mpr (List.mem_map.mpr ⟨(y, x), hy, rfl⟩), rfl⟩
  · rintro x ⟨y, hy⟩
    have hx : x ∈ uniqueSorted ((matchCoords img t tol).map Prod.snd) :=
      (hmemUS x).mpr (List.mem_map.mpr ⟨(y, x), hy, rfl⟩)
    unfold extractPoints
    refine List.mem_map.mpr ⟨x, hx, ?_⟩
    rw [colMean_eq]
  · intro x q hq
    unfold extractPoints at hq
    rcases List.mem_map.mp hq with ⟨ux, hux, heq⟩
    have h1 : ((ux : ℚ)) = (x : ℚ) := congrArg Prod.fst heq
    have h2 : colMean (matchCoords img t tol) ux = q := congrArg Prod.snd heq
    have hux2 : ux = x := Nat.cast_injective h1
    subst hux2
    rw [← h2, colMean_eq]

/-- Witness for C6: on a 1×1 black image with black target and tolerance 1/10,
column 0 has a match at row 0 and the emitted point is the mean of that
column. -/
theorem per_column_collapse_witness :
    ((0 : ℚ), ((colRows [[[0, 0, 0]]] (0, 0, 0) (1 / 10) 0).map (fun y : ℕ => (y : ℚ))).sum /
        ((colRows [[[0, 0, 0]]] (0, 0, 0) (1 / 10) 0).length : ℚ))
      ∈ extractPoints [[[0, 0, 0]]] (0, 0, 0) (1 / 10) :=
  (per_column_collapse [[[0, 0, 0]]] (0, 0, 0) (1 / 10)).2.2.1 0
    ⟨0, (mem_matchCoords [[[0, 0, 0]]] (0, 0, 0) (1 / 10) 0 0).mpr
      (by norm_num [pixelRGB, isMatch_iff])⟩

/-- Counterexample to claim C7: an out-of-range colour component (300) and a
negative tolerance are both accepted without any error — the batch succeeds
(here with an empty result) instead of failing with `InvalidInputError`. -/
theorem out_of_range_accepted_cex :
    (select_by_color [[[1, 1, 1]]] ⟨some 300, some 0, some 0, some (-5)⟩ []).2 = .ok [] ∧
    (Except.ok ([] : List (ℚ × ℚ)) : Except ColorError (List (ℚ × ℚ)))
      ≠ Except.error ColorError.invalidColorInputs := by
  constructor
  · norm_num [select_by_color, extractPoints, matchCoords, uniqueSorted, colMean, pixelRGB,
      isMatch_iff, List.range_succ, List.dedup, List.insertionSort, List.orderedInsert]
  · simp

/-- Claim C7, amended: `select_by_color` fails with the invalid-input error
exactly when one of the four texts fails to parse (`int()` / `float()` raises
`ValueError`), and then appends no points; parsed values outside `[0,255]` and
negative tolerances are accepted, a non-positive tolerance simply matching
nothing. -/
theorem color_input_failure_amended (img : Image) (inp : ColorInputs) (pts : List (ℚ × ℚ)) :
    ((select_by_color img inp pts).2 = .error .invalidColorInputs ↔
      (inp.in_r = none ∨ inp.in_g = none ∨ inp.in_b = none ∨ inp.in_tol = none)) ∧
    ((select_by_color img inp pts).2 = .error .invalidColorInputs →
      (select_by_color img inp pts).1 = pts) ∧
    (∀ u : ℚ × ℚ × ℚ, ∀ tol : ℚ, tol ≤ 0 → extractPoints img u tol = []) := by
  rcases inp with ⟨r, g, b, t⟩
  refine ⟨?_, ?_, ?_⟩
  · cases r <;> cases g <;> cases b <;> cases t <;> simp [select_by_color]
  · cases r <;> cases g <;> cases b <;> cases t <;> simp [select_by_color]
  · intro u tol htol
    simp [extractPoints, matchCoords_eq_nil img u tol htol, uniqueSorted, List.insertionSort]

/-- Witness for the amended C7: a failing red-component parse yields the
invalid-input error on a concrete image. -/
theorem color_input_failure_amended_witness :
    (select_by_color [[[0, 0, 0]]] ⟨none, some 0, some 0, some 10⟩ [(1, 2)]).2
      = .error .invalidColorInputs ∧
    (select_by_color [[[0, 0, 0]]] ⟨none, some 0, some 0, some 10⟩ [(1, 2)]).1 = [(1, 2)] := by
  have h := color_input_failure_amended [[[0, 0, 0]]] ⟨none, some 0, some 0, some 10⟩ [(1, 2)]
  have he : (select_by_color [[[0, 0, 0]]] ⟨none, some 0, some 0, some 10⟩ [(1, 2)]).2
      = .error .invalidColorInputs := h.1.mpr (Or.inl rfl)
  exact ⟨he, h.2.1 he⟩

/-- The reconstruction loop succeeds exactly by mapping every traced point, in
order, through the two axis transforms. -/
theorem computePoints_ok (xl yl : Bool) (x1p x2p y1p y2p a b d e : ℚ)
    (pts : List (ℚ × ℚ)) (rd : List (ℝ × ℝ))
    (h : computePoints xl yl x1p x2p y1p y2p a b d e pts = .ok rd) :
    rd = pts.map (fun pq =>
      (toRealValue xl x1p x2p a b pq.1, toRealValue yl y1p y2p d e pq.2)) := by
  unfold computePoints at h
  split at h
  · simp at h
  · split at h
    · simp at h
    · split at h
      · simp at h
      · split at h
        · simp at h
        · simpa using h.symm

/-- Claim C9: a successful export writes the header line `x,y` followed by one
line `fmt x ++ "," ++ fmt y` per reconstructed point, where `fmt` is the
platform float-to-string map, and row `i + 1` of the file corresponds to
traced point `i` — the row order is the traced-point order. -/
theorem csv_export_format (px1 px2 py1 py2 : ℚ) (w1 w2 w3 w4 : Option ℚ) (a b d e : ℚ)
    (pts : List (ℚ × ℚ)) (hpts : pts ≠ []) (xl yl : Bool) (rd : List (ℝ × ℝ)) (fmt : ℝ → String)
    (h : (save_dataV2 ⟨⟨⟨some px1, w1⟩, ⟨some px2, w2⟩, ⟨some py1, w3⟩, ⟨some py2, w4⟩⟩,
          pts, xl, yl⟩ ⟨.num a, .num b, .num d, .num e⟩).2 = .ok rd) :
    rd = pts.map (fun pq =>
      (toRealValue xl px1 px2 a b pq.1, toRealValue yl py1 py2 d e pq.2)) ∧
    writeCsv fmt rd
      = "x,y" :: pts.map (fun pq =>
          fmt (toRealValue xl px1 px2 a b pq.1) ++ "," ++
            fmt (toRealValue yl py1 py2 d e pq.2)) ∧
    (writeCsv fmt rd).length = pts.length + 1 ∧
    (writeCsv fmt rd)[0]? = some "x,y" ∧
    (∀ i : ℕ, i < pts.length →
      rd[i]? = some (toRealValue xl px1 px2 a b ((pts[i]?.getD (0, 0)).1),
                     toRealValue yl py1 py2 d e ((pts[i]?.getD (0, 0)).2)) ∧
      (writeCsv fmt rd)[i + 1]?
        = some (fmt (toRealValue xl px1 px2 a b ((pts[i]?.getD (0, 0)).1)) ++ "," ++
                fmt (toRealValue yl py1 py2 d e ((pts[i]?.getD (0, 0)).2)))) := by
  rw [save_dataV2_complete px1 px2 py1 py2 w1 w2 w3 w4 a b d e pts hpts xl yl] at h
  simp only at h
  have hrd := computePoints_ok xl yl px1 px2 py1 py2 a b d e pts rd h
  subst hrd
  refine ⟨rfl, ?_, ?_, by simp [writeCsv], ?_⟩
  · simp [writeCsv, List.map_map]
  · simp [writeCsv]
  · intro i hi
    constructor
    · simp [List.getElem?_map, List.getElem?_eq_getElem hi]
    · simp [writeCsv, List.getElem?_map, List.getElem?_eq_getElem hi]

/-- Witness for C9: a concrete one-point export writes exactly two lines. -/
theorem csv_export_format_witness :
    (writeCsv (fun _r => "v")
        [(toRealValue false 0 100 0 50 50, toRealValue false 0 100 0 100 50)]).length
      = 1 + 1 :=
  (csv_export_format 0 100 0 100 none none none none 0 50 0 100 [(50, 50)] (by simp)
      false false [(toRealValue false 0 100 0 50 50, toRealValue false 0 100 0 100 50)]
      (fun _r => "v")
      (by simp [save_dataV2, save_dataCore, missingNames, parsePhase, parseFloat,
        FieldText.isEmptyText, computePoints])).2.2.1

end CarbonTrace
